import Mathlib

/-!
Shallow embedding of `src/bot.py`, a Discord support-ticket automation
script: configuration validation at module load, the in-memory
`ticket_data_cache`, the `InfoModal.on_submit` callback, the
`verify_ticket` and `check_member_verification` slash commands, and the
`on_guild_channel_create` / `on_member_join` event handlers together with
the helper `create_welcome_channel_for_member`.

External-API calls (permission overwrites, message sends, channel
creation, lookups) are modelled by explicit effect values and by boolean
oracles describing what the platform returns; Python's `int`,
`str.strip` and `str.split` are modelled over the ASCII range, which
covers every configuration value considered here. The Unicode-aware
`str.isalnum` and `str.lower` of the channel-name derivation have
character tables too large to transcribe, so they enter the
name-derivation definitions as explicit parameters; an ASCII instance
is provided for concrete executions on ASCII inputs, on which it agrees
with the host's tables.
-/

namespace Bot

/-! ## Python `int(s)` for base 10 -/

/-- Digit run after the first digit, with Python's single-underscore
grouping rule: an underscore must sit between two digits. -/
def digitsCore : Nat → List Char → Option Nat
  | acc, [] => some acc
  | acc, '_' :: c :: cs =>
      if c.isDigit then digitsCore (acc * 10 + (c.toNat - 48)) cs else none
  | acc, c :: cs =>
      if c.isDigit then digitsCore (acc * 10 + (c.toNat - 48)) cs else none

/-- Value of a nonempty ASCII digit run (with underscore grouping), else `none`. -/
def pyIntDigits : List Char → Option Nat
  | [] => none
  | c :: cs => if c.isDigit then digitsCore (c.toNat - 48) cs else none

/-- Whitespace stripped by Python `str.strip()` (ASCII fragment). -/
def isSpaceChar (c : Char) : Bool :=
  c = ' ' || c = '\t' || c = '\n' || c = '\r'

/-- Python `str.strip()` on a character list. -/
def pyStrip (l : List Char) : List Char :=
  ((l.dropWhile isSpaceChar).reverse.dropWhile isSpaceChar).reverse

/-- Sign handling of Python `int`: one optional leading sign. -/
def pyIntChars : List Char → Option Int
  | '+' :: cs => (pyIntDigits cs).map (fun n => (n : Int))
  | '-' :: cs => (pyIntDigits cs).map (fun n => -(n : Int))
  | cs => (pyIntDigits cs).map (fun n => (n : Int))

/-- Python `int(s)` in base 10: strip surrounding whitespace, optional
sign, then a digit run; anything else raises `ValueError`, modelled as
`none`. -/
def pyInt (s : String) : Option Int :=
  pyIntChars (pyStrip s.toList)

/-- Python `str.split(",")` on a character list (keeps empty fields). -/
def splitCommaAux : List Char → List Char → List (List Char)
  | [], acc => [acc.reverse]
  | c :: cs, acc =>
      if c = ',' then acc.reverse :: splitCommaAux cs [] else splitCommaAux cs (c :: acc)

/-- Python `s.split(",")`. -/
def splitComma (s : String) : List String :=
  (splitCommaAux s.toList []).map (fun l => String.mk l)

/-- Python `s.strip()` as a `String` operation. -/
def pyStripStr (s : String) : String :=
  String.mk (pyStrip s.toList)

/-! ## Configuration validation (bot.py lines 24 to 66) -/

/-- The environment variables read at module load; `none` models an
unset variable (`os.getenv` returning `None`). -/
structure Env where
  bot_token : Option String
  support_role_id : Option String
  ticket_category_id : Option String
  log_channel_id : Option String
  new_member_category_id : Option String
  verified_role_ids : Option String
  deriving Repr, DecidableEq

/-- Python truthiness of an `os.getenv` result: `None` and the empty
string are falsy. -/
def truthy : Option String → Bool
  | none => false
  | some s => !s.isEmpty

def msgTokenMissing : String := "ERROR: DISCORD_BOT_TOKEN missing."

def msgSupportMissing : String := "ERROR: SUPPORT_ROLE_ID missing."

def msgTicketMissing : String := "ERROR: TICKET_CATEGORY_ID missing."

def msgNewMemberMissing : String := "ERROR: NEW_MEMBER_CATEGORY_ID missing."

def msgVerifiedMissing : String := "ERROR: VERIFIED_ROLE_IDS missing."

/-- The single generic message printed by the `except ValueError` arm
that guards the three core ID parses. -/
def msgCoreIdInvalid : String :=
  "ERROR: Core ID environment variable (Support, Ticket Cat, New Member Cat) is not a valid integer."

/-- Message naming an unparseable token of `VERIFIED_ROLE_IDS`. -/
def msgInvalidRoleId (tok : String) : String :=
  "ERROR: Invalid Role ID \x27" ++ tok ++ "\x27 found in VERIFIED_ROLE_IDS."

def msgVerifiedEmpty : String := "ERROR: VERIFIED_ROLE_IDS contained no valid Role IDs."

/-- Warning printed by the inner `try` around the optional `LOG_CHANNEL_ID`. -/
def msgLogWarning (s : String) : String :=
  "WARNING: LOG_CHANNEL_ID environment variable (\x27" ++ s
    ++ "\x27) is not a valid integer. Log channel must be set via command."

/-- One guarded core-ID parse (`if VAR_STR: VAR = int(VAR_STR)`): skipped
when the variable is unset or empty, `Except.error` models the raised
`ValueError`. -/
def parseCoreId : Option String → Except Unit (Option Int)
  | none => .ok none
  | some s =>
      if s.isEmpty then .ok none
      else
        match pyInt s with
        | some n => .ok (some n)
        | none => .error ()

/-- The optional `LOG_CHANNEL_ID` parse with its inner `try`: failure
yields a warning and `None`, never an error. -/
def parseLogChannel : Option String → Option Int × List String
  | none => (none, [])
  | some s =>
      if s.isEmpty then (none, [])
      else
        match pyInt s with
        | some n => (some n, [])
        | none => (none, [msgLogWarning s])

/-- The per-token loop of the `VERIFIED_ROLE_IDS` parse: each token is
stripped and parsed; a failure records an error naming the token and the
loop continues. Returns the ids and the error messages, in order. -/
def parseVerifiedTokens : List String → List Int × List String
  | [] => ([], [])
  | t :: ts =>
      let rest := parseVerifiedTokens ts
      match pyInt (pyStripStr t) with
      | some n => (n :: rest.1, rest.2)
      | none => (rest.1, msgInvalidRoleId (pyStripStr t) :: rest.2)

/-- The whole `VERIFIED_ROLE_IDS` block (bot.py lines 48 to 58): split on
commas, parse each token, and flag an error when any token is invalid or
when no valid id results. Returns (ids, error messages, CONFIG_ERROR
contribution). -/
def parseVerifiedConfig : Option String → List Int × List String × Bool
  | none => ([], [], false)
  | some s =>
      if s.isEmpty then ([], [], false)
      else
        let parsed := parseVerifiedTokens (splitComma s)
        if parsed.1.isEmpty then (parsed.1, parsed.2 ++ [msgVerifiedEmpty], true)
        else (parsed.1, parsed.2, !parsed.2.isEmpty)

/-- Everything the module-level validation leaves behind: the printed
error messages, warnings, the `CONFIG_ERROR` flag and the parsed values. -/
structure ConfigOutcome where
  errors : List String
  warnings : List String
  config_error : Bool
  support_role_id : Option Int
  ticket_category_id : Option Int
  new_member_category_id : Option Int
  log_channel_id : Option Int
  verified_role_ids : List Int
  deriving Repr, DecidableEq

/-- The five presence checks at bot.py lines 25 to 29, one error line
per missing required variable, in source order. -/
def missingErrors (env : Env) : List String :=
  (if truthy env.bot_token then ([] : List String) else [msgTokenMissing])
    ++ (if truthy env.support_role_id then [] else [msgSupportMissing])
    ++ (if truthy env.ticket_category_id then [] else [msgTicketMissing])
    ++ (if truthy env.new_member_category_id then [] else [msgNewMemberMissing])
    ++ (if truthy env.verified_role_ids then [] else [msgVerifiedMissing])

/-- The module-level validation of bot.py lines 24 to 66: missing checks
first, then one `try` block parsing the three core IDs in sequence (the
first `ValueError` jumps to the shared `except` arm, skipping every later
parse), then the guarded optional log-channel parse and the
`VERIFIED_ROLE_IDS` loop. -/
def validateConfig (env : Env) : ConfigOutcome :=
  let missingErrs := missingErrors env
  let ce0 := !missingErrs.isEmpty
  match parseCoreId env.support_role_id with
  | .error _ =>
      { errors := missingErrs ++ [msgCoreIdInvalid], warnings := [], config_error := true,
        support_role_id := none, ticket_category_id := none, new_member_category_id := none,
        log_channel_id := none, verified_role_ids := [] }
  | .ok sup =>
    match parseCoreId env.ticket_category_id with
    | .error _ =>
        { errors := missingErrs ++ [msgCoreIdInvalid], warnings := [], config_error := true,
          support_role_id := sup, ticket_category_id := none, new_member_category_id := none,
          log_channel_id := none, verified_role_ids := [] }
    | .ok tick =>
      match parseCoreId env.new_member_category_id with
      | .error _ =>
          { errors := missingErrs ++ [msgCoreIdInvalid], warnings := [], config_error := true,
            support_role_id := sup, ticket_category_id := tick, new_member_category_id := none,
            log_channel_id := none, verified_role_ids := [] }
      | .ok nm =>
          let logRes := parseLogChannel env.log_channel_id
          let vres := parseVerifiedConfig env.verified_role_ids
          { errors := missingErrs ++ vres.2.1, warnings := logRes.2,
            config_error := ce0 || vres.2.2,
            support_role_id := sup, ticket_category_id := tick, new_member_category_id := nm,
            log_channel_id := logRes.1, verified_role_ids := vres.1 }

/-- Python truthiness of an optional integer: `None` and `0` are falsy. -/
def intTruthy : Option Int → Bool
  | none => false
  | some n => n != 0

/-- Whether `bot.run` is reached: the module-level `exit` on
`CONFIG_ERROR` (line 66) followed by the truthiness re-check in the
`__main__` guard (line 485). -/
def botStarts (env : Env) : Bool :=
  let c := validateConfig env
  !c.config_error && truthy env.bot_token && intTruthy c.support_role_id
    && intTruthy c.ticket_category_id && intTruthy c.new_member_category_id
    && !c.verified_role_ids.isEmpty

/-! ## The in-memory session store `ticket_data_cache` -/

/-- The dictionary value stored by `InfoModal.on_submit` for one channel. -/
structure SubmittedData where
  user_id : Nat
  user_mention : String
  user_name : String
  identifier : String
  reason : String
  kill_count : String
  notes : String
  channel_name : String
  channel_mention : String
  submission_time : Nat
  deriving Repr, DecidableEq

/-- `ticket_data_cache`: a Python dict keyed by channel id, modelled as
an association list without duplicate keys (`cachePut` replaces the
first binding, deletion drops the key's bindings). -/
abbrev Cache := List (Nat × SubmittedData)

/-- Dict lookup, `cache.get(k)`: the record or an explicit absent result. -/
def cacheGet : Cache → Nat → Option SubmittedData
  | [], _ => none
  | (k2, v) :: rest, k => if k2 = k then some v else cacheGet rest k

/-- Python `k in cache`. -/
def cacheContains (c : Cache) (k : Nat) : Bool :=
  (cacheGet c k).isSome

/-- Dict assignment `cache[k] = v`: unconditional upsert. -/
def cachePut : Cache → Nat → SubmittedData → Cache
  | [], k, v => [(k, v)]
  | (k2, v2) :: rest, k, v =>
      if k2 = k then (k, v) :: rest else (k2, v2) :: cachePut rest k v

/-- Python `del cache[k]`: removes the key when present, raises
`KeyError` (modelled as `none`) when absent. -/
def pyDel (c : Cache) (k : Nat) : Option Cache :=
  if cacheContains c k then some (c.filter (fun p => p.1 != k)) else none

/-- The guarded removal written in `verify_ticket`:
`if channel_id in ticket_data_cache: del ticket_data_cache[channel_id]`.
Total, a no-op on an absent key. -/
def cacheRemove (c : Cache) (k : Nat) : Cache :=
  if cacheContains c k then c.filter (fun p => p.1 != k) else c

/-! ## `InfoModal.on_submit` (bot.py lines 115 to 133) -/

/-- Inputs to `InfoModal.on_submit`: the interacting user, the channel,
and the four form fields. `identifier` and `reason` are required by the
platform form; `kill_count` and `notes` arrive as the empty string when
left unfilled. -/
structure Submission where
  user_id : Nat
  user_mention : String
  user_name : String
  identifier : String
  reason : String
  kill_count : String
  notes : String
  channel_id : Nat
  channel_name : String
  channel_mention : String
  time : Nat
  deriving Repr, DecidableEq

/-- The store update done by `InfoModal.on_submit`: builds the record
(with defaults "N/A" and "无" for empty optional fields and
`submission_time` taken at creation) and upserts it under the channel
id. The confirmation embed it also sends carries no state and is
elided. Returns the new cache and the stored record. -/
def on_submit (cache : Cache) (s : Submission) : Cache × SubmittedData :=
  let d : SubmittedData :=
    { user_id := s.user_id, user_mention := s.user_mention, user_name := s.user_name,
      identifier := s.identifier, reason := s.reason,
      kill_count := if s.kill_count.isEmpty then ("N/A") else s.kill_count,
      notes := if s.notes.isEmpty then ("无") else s.notes,
      channel_name := s.channel_name, channel_mention := s.channel_mention,
      submission_time := s.time }
  (cachePut cache s.channel_id d, d)

/-! ## `verify_ticket` (bot.py lines 359 to 411) -/

/-- What `bot.get_channel(bot.log_channel_id)` returned: whether a
channel was found and whether it is a `discord.TextChannel`. -/
structure LogChannelLookup where
  found : Bool
  is_text_channel : Bool
  deriving Repr, DecidableEq

/-- The five mutually exclusive ways a `verify_ticket` invocation ends,
one per distinct user-visible reply. -/
inductive VerifyOutcome
  | errNoLogChannel
  | errNoRecord
  | errBadLogChannel
  | errSendFailed
  | success
  deriving Repr, DecidableEq

/-- The structured fields of the log embed built at bot.py lines 380 to
392: the optional kill-count and notes fields are added only when they
differ from their defaults. -/
structure LogEmbed where
  channel_id : Nat
  processor : String
  user_mention : String
  user_id : Nat
  identifier : String
  reason : String
  kill_count_field : Option String
  notes_field : Option String
  submission_time : Nat
  deriving Repr, DecidableEq

/-- Log-embed construction from a stored record. -/
def mkLogEmbed (processor : String) (channel_id : Nat) (d : SubmittedData) : LogEmbed :=
  { channel_id := channel_id, processor := processor,
    user_mention := d.user_mention, user_id := d.user_id,
    identifier := d.identifier, reason := d.reason,
    kill_count_field := if d.kill_count != ("N/A") then some d.kill_count else none,
    notes_field := if d.notes != ("无") then some d.notes else none,
    submission_time := d.submission_time }

/-- Result of one `verify_ticket` invocation: the outcome, the cache it
leaves behind, and the messages delivered to the log channel. -/
structure VerifyResult where
  outcome : VerifyOutcome
  cache : Cache
  log_messages : List LogEmbed
  deriving Repr, DecidableEq

/-- The `verify_ticket` command body, with its four checks in source
order: `bot.log_channel_id` truthy, record present in
`ticket_data_cache`, log channel resolvable and a text channel, and the
log send succeeding (`send_ok` is the oracle for the `try` around
`log_channel.send`). Only after all four does it confirm and delete the
cached record. -/
def verify_ticket (log_channel_id : Option Int) (lk : LogChannelLookup)
    (send_ok : Bool) (processor : String) (cache : Cache) (channel_id : Nat) :
    VerifyResult :=
  if !intTruthy log_channel_id then ⟨.errNoLogChannel, cache, []⟩
  else
    match cacheGet cache channel_id with
    | none => ⟨.errNoRecord, cache, []⟩
    | some d =>
        if !(lk.found && lk.is_text_channel) then ⟨.errBadLogChannel, cache, []⟩
        else if !send_ok then ⟨.errSendFailed, cache, []⟩
        else ⟨.success, cacheRemove cache channel_id, [mkLogEmbed processor channel_id d]⟩

/-! ## Guidance-channel name derivation (bot.py lines 190 to 191) -/

/-- The per-character test of the source comprehension at bot.py line
190, `c.isalnum() or c in [hyphen, underscore]`, parameterized by the
host language's Unicode-aware `str.isalnum` character table. -/
def keepCharWith (isalnum : Char → Bool) (c : Char) : Bool :=
  isalnum c || c = '-' || c = '_'

/-- `safe_name` (bot.py line 190), parameterized by the host's
`str.isalnum` table (applied per character inside the comprehension) and
by its `str.lower` (applied to the joined string): keep the allowed
characters of the member name, lower-case the joined result, and fall
back to "member" when the result is empty. The Unicode tables behind
`str.isalnum` and `str.lower` are too large to transcribe, so the
name-derivation theorems quantify over these two parameters: everything
proved about them holds in particular for the host's actual tables. -/
def safeNameOfWith (isalnum : Char → Bool) (lower : List Char → List Char)
    (memberName : String) : String :=
  if (lower (memberName.toList.filter (keepCharWith isalnum))).isEmpty then ("member")
  else String.mk (lower (memberName.toList.filter (keepCharWith isalnum)))

/-- The part of the derived channel name after the "welcome-" prefix:
`safe_name[:80]` (Python slicing counts characters, hence `List.take`). -/
def channelSuffixWith (isalnum : Char → Bool) (lower : List Char → List Char)
    (memberName : String) : String :=
  String.mk ((safeNameOfWith isalnum lower memberName).toList.take 80)

/-- `channel_name` (bot.py line 191): the "welcome-" prefix followed by
`safe_name[:80]`. -/
def channelNameForWith (isalnum : Char → Bool) (lower : List Char → List Char)
    (memberName : String) : String :=
  "welcome-" ++ channelSuffixWith isalnum lower memberName

/-- The ASCII fragment of Python `str.isalnum`: the decidable table used
to run the embedding on concrete ASCII inputs, on which it agrees with
the host's full Unicode table. -/
def isAlnumChar (c : Char) : Bool :=
  (48 ≤ c.toNat && c.toNat ≤ 57) || (65 ≤ c.toNat && c.toNat ≤ 90)
    || (97 ≤ c.toNat && c.toNat ≤ 122)

/-- The ASCII fragment of Python `str.lower`, per character: agrees with
the host's case mapping on ASCII inputs. -/
def lowerChar (c : Char) : Char :=
  if 65 ≤ c.toNat ∧ c.toNat ≤ 90 then Char.ofNat (c.toNat + 32) else c

/-- `safe_name` instantiated with the ASCII tables, for concrete
executions on ASCII member names. -/
def safeNameOf (memberName : String) : String :=
  safeNameOfWith isAlnumChar (List.map lowerChar) memberName

/-- `channel_name` instantiated with the ASCII tables. -/
def channelNameFor (memberName : String) : String :=
  channelNameForWith isAlnumChar (List.map lowerChar) memberName

/-! ## `create_welcome_channel_for_member` (bot.py lines 179 to 241) -/

/-- A text channel of the welcome category, as far as the
lookup-or-create logic observes it. -/
structure TextChannel where
  id : Nat
  name : String
  deriving Repr, DecidableEq

/-- The welcome category's text channels plus a fresh-id counter that
models the platform assigning a new channel id. -/
structure WelcomeCategory where
  text_channels : List TextChannel
  next_id : Nat
  deriving Repr, DecidableEq

/-- The two message sends of the helper: the reminder posted into an
existing channel, or the guidance message posted into a newly created
one. -/
inductive WelcomeEffect
  | reminderSent (channelId : Nat)
  | guidanceSent (channelId : Nat)
  deriving Repr, DecidableEq

/-- `discord.utils.get(text_channels, name=n)`: first channel with the
given name. -/
def findByName : List TextChannel → String → Option TextChannel
  | [], _ => none
  | ch :: rest, n => if ch.name = n then some ch else findByName rest n

/-- The success path of `create_welcome_channel_for_member`: derive the
sanitized name, return the existing channel (posting a reminder) when
one of that name exists, otherwise create the channel at the end of the
category and post the guidance message. Permission overwrites are
applied through the external API and carry no state here. Returns the
updated category, the message effect, and the returned channel id. -/
def create_welcome_channel_for_member (cat : WelcomeCategory) (memberName : String) :
    WelcomeCategory × WelcomeEffect × Nat :=
  let cname := channelNameFor memberName
  match findByName cat.text_channels cname with
  | some existing => (cat, .reminderSent existing.id, existing.id)
  | none =>
      let newCh : TextChannel := { id := cat.next_id, name := cname }
      ({ text_channels := cat.text_channels ++ [newCh], next_id := cat.next_id + 1 },
        .guidanceSent newCh.id, newCh.id)

/-! ## `on_member_join` (bot.py lines 307 to 323) and
`check_member_verification` (bot.py lines 427 to 468) -/

/-- What `guild.get_role(SUPPORT_ROLE_ID)` and
`guild.get_channel(NEW_MEMBER_CATEGORY_ID)` resolved to:
`welcome_category_found` also covers the `isinstance(...,
CategoryChannel)` check. -/
structure GuildLookup where
  support_role_found : Bool
  welcome_category_found : Bool
  deriving Repr, DecidableEq

/-- How the `on_member_join` handler ends. -/
inductive JoinAction
  | skippedNoCategory
  | skippedMissingConfig
  | ensureWelcomeChannel
  deriving Repr, DecidableEq

/-- The `on_member_join` decision logic: bail out when the welcome
category id is unset or when the role/category lookups fail, otherwise
call `create_welcome_channel_for_member`. The member's roles are taken
as a parameter and, as in the source, never consulted. -/
def on_member_join (new_member_category_id : Option Int) (lookup : GuildLookup)
    (_memberRoleIds : List Int) : JoinAction :=
  if !intTruthy new_member_category_id then .skippedNoCategory
  else if !(lookup.support_role_found && lookup.welcome_category_found) then
    .skippedMissingConfig
  else .ensureWelcomeChannel

/-- How the `check_member_verification` command ends, one constructor
per distinct reply. -/
inductive CheckAction
  | errNoVerifiedConfig
  | errNoCategoryConfig
  | errNoSupportConfig
  | errLookupFailed
  | alreadyVerified
  | ensureWelcomeChannel
  deriving Repr, DecidableEq

/-- The membership test at bot.py lines 447 to 448:
`any(verified_id in member_role_ids for verified_id in VERIFIED_ROLE_IDS)`. -/
def has_verified_role (memberRoleIds : List Int) (verified : List Int) : Bool :=
  verified.any (fun v => memberRoleIds.contains v)

/-- The `check_member_verification` decision logic, with its config
checks in source order; a member holding any verified role is reported
as already verified and no channel work happens. -/
def check_member_verification (verified_role_ids : List Int)
    (new_member_category_id support_role_id : Option Int)
    (lookup : GuildLookup) (memberRoleIds : List Int) : CheckAction :=
  if verified_role_ids.isEmpty then .errNoVerifiedConfig
  else if !intTruthy new_member_category_id then .errNoCategoryConfig
  else if !intTruthy support_role_id then .errNoSupportConfig
  else if !(lookup.support_role_found && lookup.welcome_category_found) then
    .errLookupFailed
  else if has_verified_role memberRoleIds verified_role_ids then .alreadyVerified
  else .ensureWelcomeChannel

/-! ## `on_guild_channel_create` (bot.py lines 268 to 304) -/

/-- A just-created guild channel as the handler observes it. -/
structure CreatedChannel where
  id : Nat
  category_id : Option Int
  is_text_channel : Bool
  deriving Repr, DecidableEq

/-- The externally visible side effects of the ticket-channel setup. -/
inductive TicketSetupEffect
  | permissionOverwriteApplied (channelId : Nat)
  | messageSent (channelId : Nat)
  | configErrorNoticeSent (channelId : Nat)
  deriving Repr, DecidableEq

/-- The `on_guild_channel_create` handler: non-text channels and
channels outside `TICKET_CATEGORY_ID` are ignored; otherwise the support
role is resolved (failure posts a configuration-error notice) and the
permission overwrite plus the intake-prompt message are applied. The
session store is threaded through to make visible that the handler never
touches it. -/
def on_guild_channel_create (ticket_category_id : Int) (support_role_found : Bool)
    (ch : CreatedChannel) (cache : Cache) : List TicketSetupEffect × Cache :=
  if !ch.is_text_channel then ([], cache)
  else if ch.category_id != some ticket_category_id then ([], cache)
  else if !support_role_found then ([.configErrorNoticeSent ch.id], cache)
  else ([.permissionOverwriteApplied ch.id, .messageSent ch.id], cache)

/-! ## Store lemmas -/

theorem cacheGet_cachePut_self (c : Cache) (k : Nat) (r : SubmittedData) :
    cacheGet (cachePut c k r) k = some r := by
  induction c with
  | nil => simp [cachePut, cacheGet]
  | cons p rest ih =>
      obtain ⟨k2, v2⟩ := p
      by_cases h : k2 = k
      · simp [cachePut, h, cacheGet]
      · simp [cachePut, h, cacheGet, ih]

theorem cacheGet_cachePut_ne (c : Cache) (k k2 : Nat) (r : SubmittedData)
    (h : k2 ≠ k) : cacheGet (cachePut c k2 r) k = cacheGet c k := by
  induction c with
  | nil => simp [cachePut, cacheGet, h]
  | cons p rest ih =>
      obtain ⟨k3, v3⟩ := p
      by_cases h3 : k3 = k2
      · subst h3
        simp [cachePut, cacheGet, h]
      · simp [cachePut, h3, cacheGet, ih]

theorem cacheGet_filter_self (c : Cache) (k : Nat) :
    cacheGet (c.filter (fun p => p.1 != k)) k = none := by
  induction c with
  | nil => simp [cacheGet]
  | cons p rest ih =>
      obtain ⟨k2, v2⟩ := p
      by_cases h : k2 = k
      · simp [List.filter_cons, h, ih]
      · simp [List.filter_cons, h, cacheGet, ih]

theorem cacheGet_filter_ne (c : Cache) (k k2 : Nat) (h : k2 ≠ k) :
    cacheGet (c.filter (fun p => p.1 != k2)) k = cacheGet c k := by
  induction c with
  | nil => simp
  | cons p rest ih =>
      obtain ⟨k3, v3⟩ := p
      by_cases h3 : k3 = k2
      · subst h3
        simp [List.filter_cons, cacheGet, h, ih]
      · by_cases h4 : k3 = k
        · simp [List.filter_cons, h3, cacheGet, h4, Ne.symm h]
        · simp [List.filter_cons, h3, cacheGet, h4, ih]

theorem cacheGet_cacheRemove_self (c : Cache) (k : Nat) :
    cacheGet (cacheRemove c k) k = none := by
  unfold cacheRemove
  by_cases h : cacheContains c k
  · simp [h, cacheGet_filter_self]
  · have h2 : cacheGet c k = none := by
      unfold cacheContains at h
      exact Option.not_isSome_iff_eq_none.mp (by simpa using h)
    simp [h, h2]

theorem cacheRemove_absent (c : Cache) (k : Nat) (h : cacheGet c k = none) :
    cacheRemove c k = c := by
  unfold cacheRemove cacheContains
  simp [h]

theorem cacheGet_cacheRemove_ne (c : Cache) (k k2 : Nat) (h : k2 ≠ k) :
    cacheGet (cacheRemove c k2) k = cacheGet c k := by
  unfold cacheRemove
  by_cases hc : cacheContains c k2
  · simp [hc, cacheGet_filter_ne c k k2 h]
  · simp [hc]

theorem pyDel_isSome (c : Cache) (k : Nat) (h : cacheContains c k = true) :
    (pyDel c k).isSome = true := by
  unfold pyDel
  simp [h]

theorem cacheRemove_eq_pyDel (c : Cache) (k : Nat) :
    cacheRemove c k = (pyDel c k).getD c := by
  unfold cacheRemove pyDel
  by_cases h : cacheContains c k
  · simp [h]
  · simp [h]

/-! ## Claim theorems -/

/-- C6: after `put(c, r)` the store returns exactly `r` for `c` until a
further `put(c, r2)` (then `r2`) or a `remove(c)` (then absent);
operations on a different key do not disturb the entry; `remove` on an
absent key is a no-op, and the guarded removal never executes `del` on
an absent key (so it never raises). -/
theorem c6_session_store_laws (c : Cache) (k k2 : Nat) (r r2 : SubmittedData) :
    cacheGet (cachePut c k r) k = some r ∧
    cacheGet (cachePut (cachePut c k r) k r2) k = some r2 ∧
    cacheGet (cacheRemove (cachePut c k r) k) k = none ∧
    (k2 ≠ k → cacheGet (cachePut c k2 r2) k = cacheGet c k) ∧
    (k2 ≠ k → cacheGet (cacheRemove c k2) k = cacheGet c k) ∧
    (cacheGet c k = none → cacheRemove c k = c) ∧
    (cacheContains c k = true → (pyDel c k).isSome = true) ∧
    cacheRemove c k = (pyDel c k).getD c :=
  ⟨cacheGet_cachePut_self c k r,
    cacheGet_cachePut_self (cachePut c k r) k r2,
    cacheGet_cacheRemove_self (cachePut c k r) k,
    fun h => cacheGet_cachePut_ne c k k2 r2 h,
    fun h => cacheGet_cacheRemove_ne c k k2 h,
    fun h => cacheRemove_absent c k h,
    fun h => pyDel_isSome c k h,
    cacheRemove_eq_pyDel c k⟩

/-- A concrete stored record used by witnesses. -/
def sampleRecord : SubmittedData :=
  { user_id := 1, user_mention := "u", user_name := "u#1", identifier := "Role#1234",
    reason := "apply for membership", kill_count := "N/A", notes := "无",
    channel_name := "ticket-1", channel_mention := "c", submission_time := 3 }

/-- A second concrete record used by witnesses. -/
def sampleRecord2 : SubmittedData :=
  { sampleRecord with identifier := "Role#5678", submission_time := 4 }

/-- C6 witness at concrete inputs. -/
theorem c6_session_store_laws_witness :
    cacheGet (cachePut [] 5 sampleRecord) 5 = some sampleRecord ∧
    cacheGet (cachePut [] 9 sampleRecord2) 5 = cacheGet [] 5 ∧
    cacheRemove ([] : Cache) 5 = [] :=
  ⟨(c6_session_store_laws [] 5 9 sampleRecord sampleRecord2).1,
    (c6_session_store_laws [] 5 9 sampleRecord sampleRecord2).2.2.2.1 (by decide),
    (c6_session_store_laws [] 5 9 sampleRecord sampleRecord2).2.2.2.2.2.1 (by decide)⟩

/-- C3: `verify_ticket` on a channel with no stored record replies with
a precondition error and never contacts the log sink; its four checks
run in source order — log channel configured, record present, log
channel resolvable and a text channel, log send succeeding — each ending
in its own distinct outcome, and only passing all four delivers a log
message. -/
theorem c3_verify_precondition_order (lid : Option Int) (lk : LogChannelLookup)
    (send : Bool) (proc : String) (cache : Cache) (cid : Nat) :
    (cacheGet cache cid = none →
      (verify_ticket lid lk send proc cache cid).log_messages = [] ∧
      ((verify_ticket lid lk send proc cache cid).outcome = .errNoLogChannel ∨
        (verify_ticket lid lk send proc cache cid).outcome = .errNoRecord)) ∧
    (intTruthy lid = false →
      (verify_ticket lid lk send proc cache cid).outcome = .errNoLogChannel ∧
      (verify_ticket lid lk send proc cache cid).log_messages = []) ∧
    (intTruthy lid = true → cacheGet cache cid = none →
      (verify_ticket lid lk send proc cache cid).outcome = .errNoRecord ∧
      (verify_ticket lid lk send proc cache cid).log_messages = []) ∧
    (∀ d, intTruthy lid = true → cacheGet cache cid = some d →
      (lk.found && lk.is_text_channel) = false →
      (verify_ticket lid lk send proc cache cid).outcome = .errBadLogChannel ∧
      (verify_ticket lid lk send proc cache cid).log_messages = []) ∧
    (∀ d, intTruthy lid = true → cacheGet cache cid = some d →
      (lk.found && lk.is_text_channel) = true → send = false →
      (verify_ticket lid lk send proc cache cid).outcome = .errSendFailed ∧
      (verify_ticket lid lk send proc cache cid).log_messages = []) ∧
    (∀ d, intTruthy lid = true → cacheGet cache cid = some d →
      (lk.found && lk.is_text_channel) = true → send = true →
      (verify_ticket lid lk send proc cache cid).outcome = .success ∧
      (verify_ticket lid lk send proc cache cid).log_messages = [mkLogEmbed proc cid d]) := by
  refine ⟨?_, ?_, ?_, ?_, ?_, ?_⟩
  · intro h
    by_cases hl : intTruthy lid
    · simp [verify_ticket, hl, h]
    · simp [verify_ticket, hl]
  · intro h
    simp [verify_ticket, h]
  · intro hl h
    simp [verify_ticket, hl, h]
  · intro d hl h hlk
    simp [verify_ticket, hl, h, hlk]
  · intro d hl h hlk hs
    simp [verify_ticket, hl, h, hlk, hs]
  · intro d hl h hlk hs
    simp [verify_ticket, hl, h, hlk, hs]

/-- C3 witness: a channel with no record yields a precondition error and
no log contact. -/
theorem c3_verify_precondition_order_witness :
    (verify_ticket (some 7) ⟨true, true⟩ true ("staff") [] 3).log_messages = [] ∧
    ((verify_ticket (some 7) ⟨true, true⟩ true ("staff") [] 3).outcome = .errNoLogChannel ∨
      (verify_ticket (some 7) ⟨true, true⟩ true ("staff") [] 3).outcome = .errNoRecord) :=
  (c3_verify_precondition_order (some 7) ⟨true, true⟩ true ("staff") [] 3).1 (by decide)

/-- C9: when `verify_ticket` ends in any outcome other than success the
session store is exactly as before, so a retry still finds the record;
the record is removed (and a log message delivered) only on success. -/
theorem c9_record_kept_unless_logged (lid : Option Int) (lk : LogChannelLookup)
    (send : Bool) (proc : String) (cache : Cache) (cid : Nat) :
    ((verify_ticket lid lk send proc cache cid).outcome ≠ .success →
      (verify_ticket lid lk send proc cache cid).cache = cache ∧
      (verify_ticket lid lk send proc cache cid).log_messages = []) ∧
    ((verify_ticket lid lk send proc cache cid).outcome = .success →
      (verify_ticket lid lk send proc cache cid).cache = cacheRemove cache cid ∧
      (verify_ticket lid lk send proc cache cid).log_messages ≠ []) := by
  by_cases hl : intTruthy lid
  · rcases hget : cacheGet cache cid with _ | d
    · constructor
      · intro _
        simp [verify_ticket, hl, hget]
      · intro hs
        simp [verify_ticket, hl, hget] at hs
    · by_cases hlk : (lk.found && lk.is_text_channel) = true
      · by_cases hs : send = true
        · constructor
          · intro hns
            exact absurd (by simp [verify_ticket, hl, hget, hlk, hs]) hns
          · intro _
            simp [verify_ticket, hl, hget, hlk, hs]
        · constructor
          · intro _
            simp [verify_ticket, hl, hget, hlk, hs]
          · intro hcontra
            simp [verify_ticket, hl, hget, hlk, hs] at hcontra
      · constructor
        · intro _
          simp [verify_ticket, hl, hget, hlk]
        · intro hcontra
          simp [verify_ticket, hl, hget, hlk] at hcontra
  · constructor
    · intro _
      simp [verify_ticket, hl]
    · intro hcontra
      simp [verify_ticket, hl] at hcontra

/-- C9 witness: a failed precondition (record absent) leaves the store
untouched. -/
theorem c9_record_kept_unless_logged_witness :
    (verify_ticket (some 7) ⟨true, true⟩ true ("staff") [(4, sampleRecord)] 3).cache
        = [(4, sampleRecord)] ∧
    (verify_ticket (some 7) ⟨true, true⟩ true ("staff") [(4, sampleRecord)] 3).log_messages = [] :=
  (c9_record_kept_unless_logged (some 7) ⟨true, true⟩ true ("staff")
    [(4, sampleRecord)] 3).1 (by decide)

/-- C8: a channel-creation event outside the ticket category produces no
side effects at all and leaves the session store unchanged. -/
theorem c8_nonticket_channel_no_effects (tid : Int) (srf : Bool)
    (ch : CreatedChannel) (cache : Cache) (h : ch.category_id ≠ some tid) :
    on_guild_channel_create tid srf ch cache = ([], cache) := by
  unfold on_guild_channel_create
  by_cases ht : ch.is_text_channel
  · simp [ht, h]
  · simp [ht]

/-- C8 witness at a concrete channel whose category differs from the
configured ticket category. -/
theorem c8_nonticket_channel_no_effects_witness :
    on_guild_channel_create 10 true ⟨1, some 3, true⟩ [] = ([], []) :=
  c8_nonticket_channel_no_effects 10 true ⟨1, some 3, true⟩ [] (by decide)

/-- C4: an intake submission with non-empty identifier and reason and
empty optional fields stores a record whose kill count defaults to
"N/A", whose notes default to "无" (the source's Chinese for "none") and
whose submission time is set at creation; a subsequent successful
verification removes the record and delivers exactly one log message
carrying the identifier and reason verbatim. -/
theorem c4_intake_defaults_then_verify (cache : Cache) (s : Submission)
    (proc : String) (lid : Int) (_hid : s.identifier ≠ ("")) (_hr : s.reason ≠ (""))
    (hk : s.kill_count = ("")) (hn : s.notes = ("")) (hlid : lid ≠ 0) :
    (on_submit cache s).2.kill_count = ("N/A") ∧
    (on_submit cache s).2.notes = ("无") ∧
    (on_submit cache s).2.submission_time = s.time ∧
    (on_submit cache s).2.identifier = s.identifier ∧
    (on_submit cache s).2.reason = s.reason ∧
    cacheGet (on_submit cache s).1 s.channel_id = some (on_submit cache s).2 ∧
    (verify_ticket (some lid) ⟨true, true⟩ true proc (on_submit cache s).1
        s.channel_id).outcome = .success ∧
    cacheGet (verify_ticket (some lid) ⟨true, true⟩ true proc (on_submit cache s).1
        s.channel_id).cache s.channel_id = none ∧
    (verify_ticket (some lid) ⟨true, true⟩ true proc (on_submit cache s).1
        s.channel_id).log_messages = [mkLogEmbed proc s.channel_id (on_submit cache s).2] ∧
    (mkLogEmbed proc s.channel_id (on_submit cache s).2).identifier = s.identifier ∧
    (mkLogEmbed proc s.channel_id (on_submit cache s).2).reason = s.reason := by
  have hkE : s.kill_count.isEmpty = true := by
    rw [hk]
    decide
  have hnE : s.notes.isEmpty = true := by
    rw [hn]
    decide
  have hget : cacheGet (on_submit cache s).1 s.channel_id = some (on_submit cache s).2 := by
    unfold on_submit
    exact cacheGet_cachePut_self cache s.channel_id _
  have hl : intTruthy (some lid) = true := by
    simp [intTruthy, hlid]
  refine ⟨?_, ?_, ?_, ?_, ?_, hget, ?_, ?_, ?_, ?_, ?_⟩
  · simp [on_submit, hkE]
  · simp [on_submit, hnE]
  · simp [on_submit]
  · simp [on_submit]
  · simp [on_submit]
  · simp [verify_ticket, hl, hget]
  · simp [verify_ticket, hl, hget, cacheGet_cacheRemove_self]
  · simp [verify_ticket, hl, hget]
  · simp [mkLogEmbed, on_submit]
  · simp [mkLogEmbed, on_submit]

/-- A concrete intake submission used by the C4 witness. -/
def sampleSubmission : Submission :=
  { user_id := 10, user_mention := "u", user_name := "u#1",
    identifier := "Role#1234", reason := "apply for membership",
    kill_count := "", notes := "", channel_id := 42,
    channel_name := "ticket-42", channel_mention := "c", time := 100 }

/-- C4 witness at a concrete submission and configuration. -/
theorem c4_intake_defaults_then_verify_witness :
    (on_submit [] sampleSubmission).2.kill_count = ("N/A") ∧
    (on_submit [] sampleSubmission).2.notes = ("无") ∧
    (on_submit [] sampleSubmission).2.submission_time = sampleSubmission.time ∧
    (on_submit [] sampleSubmission).2.identifier = sampleSubmission.identifier ∧
    (on_submit [] sampleSubmission).2.reason = sampleSubmission.reason ∧
    cacheGet (on_submit [] sampleSubmission).1 sampleSubmission.channel_id
        = some (on_submit [] sampleSubmission).2 ∧
    (verify_ticket (some 7) ⟨true, true⟩ true ("staff") (on_submit [] sampleSubmission).1
        sampleSubmission.channel_id).outcome = .success ∧
    cacheGet (verify_ticket (some 7) ⟨true, true⟩ true ("staff") (on_submit [] sampleSubmission).1
        sampleSubmission.channel_id).cache sampleSubmission.channel_id = none ∧
    (verify_ticket (some 7) ⟨true, true⟩ true ("staff") (on_submit [] sampleSubmission).1
        sampleSubmission.channel_id).log_messages
      = [mkLogEmbed ("staff") sampleSubmission.channel_id (on_submit [] sampleSubmission).2] ∧
    (mkLogEmbed ("staff") sampleSubmission.channel_id (on_submit [] sampleSubmission).2).identifier
      = sampleSubmission.identifier ∧
    (mkLogEmbed ("staff") sampleSubmission.channel_id (on_submit [] sampleSubmission).2).reason
      = sampleSubmission.reason :=
  c4_intake_defaults_then_verify [] sampleSubmission ("staff") 7
    (by decide) (by decide) (by decide) (by decide) (by decide)

/-- C5: parsing "111, 222,333" yields exactly the ids 111, 222, 333
with no error; "111,abc" flags a configuration error whose message
names the offending token "abc"; and any present configuration string
whose parse yields no ids at all is also flagged as a configuration
error. -/
theorem c5_verified_role_ids_parsing :
    parseVerifiedConfig (some ("111, 222,333")) = ([111, 222, 333], [], false) ∧
    (parseVerifiedConfig (some ("111,abc"))).2.1
      = ["ERROR: Invalid Role ID \x27abc\x27 found in VERIFIED_ROLE_IDS."] ∧
    (parseVerifiedConfig (some ("111,abc"))).2.2 = true ∧
    (∀ s : String, truthy (some s) = true → (parseVerifiedConfig (some s)).1 = [] →
      (parseVerifiedConfig (some s)).2.2 = true) := by
  refine ⟨by decide, by decide, by decide, ?_⟩
  intro s hs hempty
  have he : s.isEmpty = false := by
    simp [truthy] at hs
    exact hs
  by_cases hp : (parseVerifiedTokens (splitComma s)).1.isEmpty
  · simp [parseVerifiedConfig, he, hp]
  · simp [parseVerifiedConfig, he, hp] at hempty ⊢
    exact absurd (show (parseVerifiedTokens (splitComma s)).1.isEmpty = true by
      simp [hempty]) hp

/-- C5 witness: a present string parsing to no ids is an error. -/
theorem c5_verified_role_ids_parsing_witness :
    (parseVerifiedConfig (some ("abc"))).1 = [] ∧
    (parseVerifiedConfig (some ("abc"))).2.2 = true :=
  ⟨by decide, c5_verified_role_ids_parsing.2.2.2 ("abc") (by decide) (by decide)⟩

/-- A required env string is set (truthy) yet fails Python integer
parsing. -/
def coreParseFails : Option String → Bool
  | none => false
  | some s => !s.isEmpty && (pyInt s).isNone

/-- Some required configuration field is missing or invalid: one of the
five required variables is unset or empty, one of the three core IDs
fails integer parsing, or the `VERIFIED_ROLE_IDS` block flags an error
(an invalid token, or no valid id). -/
def requiredProblem (env : Env) : Bool :=
  !truthy env.bot_token || !truthy env.support_role_id || !truthy env.ticket_category_id
    || !truthy env.new_member_category_id || !truthy env.verified_role_ids
    || coreParseFails env.support_role_id || coreParseFails env.ticket_category_id
    || coreParseFails env.new_member_category_id
    || (parseVerifiedConfig env.verified_role_ids).2.2

theorem coreParseFails_iff (v : Option String) :
    coreParseFails v = true ↔ parseCoreId v = .error () := by
  cases v with
  | none => simp [coreParseFails, parseCoreId]
  | some s =>
      by_cases he : s.isEmpty
      · simp [coreParseFails, parseCoreId, he]
      · cases hp : pyInt s with
        | none => simp [coreParseFails, parseCoreId, he, hp]
        | some n => simp [coreParseFails, parseCoreId, he, hp]

theorem missingErrors_isEmpty_iff (env : Env) :
    (missingErrors env).isEmpty = true ↔
      (truthy env.bot_token = true ∧ truthy env.support_role_id = true ∧
        truthy env.ticket_category_id = true ∧ truthy env.new_member_category_id = true ∧
        truthy env.verified_role_ids = true) := by
  unfold missingErrors
  by_cases h1 : truthy env.bot_token <;> by_cases h2 : truthy env.support_role_id <;>
    by_cases h3 : truthy env.ticket_category_id <;>
    by_cases h4 : truthy env.new_member_category_id <;>
    by_cases h5 : truthy env.verified_role_ids <;> simp [h1, h2, h3, h4, h5]

theorem validateConfig_errors_shape (env : Env) :
    ∃ tail, (validateConfig env).errors = missingErrors env ++ tail := by
  unfold validateConfig
  rcases hs : parseCoreId env.support_role_id with _ | sup
  · exact ⟨[msgCoreIdInvalid], rfl⟩
  · rcases ht : parseCoreId env.ticket_category_id with _ | tick
    · exact ⟨[msgCoreIdInvalid], rfl⟩
    · rcases hn : parseCoreId env.new_member_category_id with _ | nm
      · exact ⟨[msgCoreIdInvalid], rfl⟩
      · exact ⟨(parseVerifiedConfig env.verified_role_ids).2.1, rfl⟩

theorem missingErrors_nonempty_of_missing (env : Env)
    (h : truthy env.bot_token = false ∨ truthy env.support_role_id = false ∨
      truthy env.ticket_category_id = false ∨ truthy env.new_member_category_id = false ∨
      truthy env.verified_role_ids = false) :
    (missingErrors env).isEmpty = false := by
  cases hb : (missingErrors env).isEmpty
  · rfl
  · exfalso
    have hall := (missingErrors_isEmpty_iff env).mp hb
    rcases h with h | h | h | h | h <;> simp [h] at hall

theorem validateConfig_config_error (env : Env) (h : requiredProblem env = true) :
    (validateConfig env).config_error = true := by
  unfold validateConfig
  rcases hs : parseCoreId env.support_role_id with _ | sup
  · rfl
  · rcases ht : parseCoreId env.ticket_category_id with _ | tick
    · rfl
    · rcases hn : parseCoreId env.new_member_category_id with _ | nm
      · rfl
      · show (!(missingErrors env).isEmpty || (parseVerifiedConfig env.verified_role_ids).2.2)
            = true
        unfold requiredProblem at h
        have hcs : coreParseFails env.support_role_id = false := by
          rcases hb : coreParseFails env.support_role_id
          · rfl
          · rw [(coreParseFails_iff _).mp hb] at hs
            exact absurd hs (by simp)
        have hct : coreParseFails env.ticket_category_id = false := by
          rcases hb : coreParseFails env.ticket_category_id
          · rfl
          · rw [(coreParseFails_iff _).mp hb] at ht
            exact absurd ht (by simp)
        have hcn : coreParseFails env.new_member_category_id = false := by
          rcases hb : coreParseFails env.new_member_category_id
          · rfl
          · rw [(coreParseFails_iff _).mp hb] at hn
            exact absurd hn (by simp)
        rw [hcs, hct, hcn] at h
        simp only [Bool.or_eq_true, Bool.not_eq_true', Bool.false_eq_true, false_or,
          or_false] at h
        rcases h with ((((h | h) | h) | h) | h) | h
        · simp [missingErrors_nonempty_of_missing env (Or.inl h)]
        · simp [missingErrors_nonempty_of_missing env (Or.inr (Or.inl h))]
        · simp [missingErrors_nonempty_of_missing env (Or.inr (Or.inr (Or.inl h)))]
        · simp [missingErrors_nonempty_of_missing env (Or.inr (Or.inr (Or.inr (Or.inl h))))]
        · simp [missingErrors_nonempty_of_missing env (Or.inr (Or.inr (Or.inr (Or.inr h))))]
        · simp [h]

theorem botStarts_false_of_config_error (env : Env)
    (h : (validateConfig env).config_error = true) : botStarts env = false := by
  unfold botStarts
  simp [h]

/-- C2 (amended): whenever a required identifier field is missing or
invalid, `CONFIG_ERROR` is set and the orchestrator is never started;
every MISSING required field is enumerated with its own error message,
but any core-ID integer-parse failure contributes only the single shared
generic message (which names no field and suppresses later parses). -/
theorem c2_config_failure_behavior (env : Env) (h : requiredProblem env = true) :
    (validateConfig env).config_error = true ∧
    botStarts env = false ∧
    (truthy env.bot_token = false → msgTokenMissing ∈ (validateConfig env).errors) ∧
    (truthy env.support_role_id = false → msgSupportMissing ∈ (validateConfig env).errors) ∧
    (truthy env.ticket_category_id = false → msgTicketMissing ∈ (validateConfig env).errors) ∧
    (truthy env.new_member_category_id = false →
      msgNewMemberMissing ∈ (validateConfig env).errors) ∧
    (truthy env.verified_role_ids = false → msgVerifiedMissing ∈ (validateConfig env).errors) ∧
    ((coreParseFails env.support_role_id || coreParseFails env.ticket_category_id
        || coreParseFails env.new_member_category_id) = true →
      msgCoreIdInvalid ∈ (validateConfig env).errors) := by
  obtain ⟨tail, htail⟩ := validateConfig_errors_shape env
  have hmiss : ∀ m, m ∈ missingErrors env → m ∈ (validateConfig env).errors := by
    intro m hm
    rw [htail]
    exact List.mem_append_left _ hm
  have hce := validateConfig_config_error env h
  refine ⟨hce, botStarts_false_of_config_error env hce, ?_, ?_, ?_, ?_, ?_, ?_⟩
  · intro hx
    exact hmiss _ (by simp [missingErrors, hx])
  · intro hx
    exact hmiss _ (by simp [missingErrors, hx])
  · intro hx
    exact hmiss _ (by simp [missingErrors, hx])
  · intro hx
    exact hmiss _ (by simp [missingErrors, hx])
  · intro hx
    exact hmiss _ (by simp [missingErrors, hx])
  · intro hx
    unfold validateConfig
    rcases hs : parseCoreId env.support_role_id with _ | sup
    · simp
    · rcases ht : parseCoreId env.ticket_category_id with _ | tick
      · simp
      · rcases hn : parseCoreId env.new_member_category_id with _ | nm
        · simp
        · exfalso
          simp only [Bool.or_eq_true] at hx
          rcases hx with (hx | hx) | hx
          · rw [(coreParseFails_iff _).mp hx] at hs
            exact absurd hs (by simp)
          · rw [(coreParseFails_iff _).mp hx] at ht
            exact absurd ht (by simp)
          · rw [(coreParseFails_iff _).mp hx] at hn
            exact absurd hn (by simp)

/-- An environment with every variable unset. -/
def envAllMissing : Env :=
  { bot_token := none, support_role_id := none, ticket_category_id := none,
    log_channel_id := none, new_member_category_id := none, verified_role_ids := none }

/-- C2 witness: with every variable unset, all five missing fields are
enumerated and the bot never starts. -/
theorem c2_config_failure_behavior_witness :
    (validateConfig envAllMissing).config_error = true ∧
    botStarts envAllMissing = false ∧
    (truthy envAllMissing.bot_token = false →
      msgTokenMissing ∈ (validateConfig envAllMissing).errors) ∧
    (truthy envAllMissing.support_role_id = false →
      msgSupportMissing ∈ (validateConfig envAllMissing).errors) ∧
    (truthy envAllMissing.ticket_category_id = false →
      msgTicketMissing ∈ (validateConfig envAllMissing).errors) ∧
    (truthy envAllMissing.new_member_category_id = false →
      msgNewMemberMissing ∈ (validateConfig envAllMissing).errors) ∧
    (truthy envAllMissing.verified_role_ids = false →
      msgVerifiedMissing ∈ (validateConfig envAllMissing).errors) ∧
    ((coreParseFails envAllMissing.support_role_id
        || coreParseFails envAllMissing.ticket_category_id
        || coreParseFails envAllMissing.new_member_category_id) = true →
      msgCoreIdInvalid ∈ (validateConfig envAllMissing).errors) :=
  c2_config_failure_behavior envAllMissing (by decide)

/-- An environment where two core IDs are both non-numeric. -/
def envTwoInvalid : Env :=
  { bot_token := some ("token"), support_role_id := some ("abc"),
    ticket_category_id := some ("xyz"), log_channel_id := none,
    new_member_category_id := some ("5"), verified_role_ids := some ("111") }

/-- The same environment with only the support role ID non-numeric. -/
def envOneInvalid : Env :=
  { envTwoInvalid with ticket_category_id := some ("7") }

/-- C2 counterexample: with two invalid core IDs the validation emits a
single generic error line, identical to the one emitted when only one
field is invalid — the report does not enumerate every invalid field and
does not name the offending field — although startup is still refused. -/
theorem c2_counterexample_no_enumeration :
    pyInt ("abc") = none ∧ pyInt ("xyz") = none ∧
    (validateConfig envTwoInvalid).errors = [msgCoreIdInvalid] ∧
    (validateConfig envTwoInvalid).errors.length = 1 ∧
    (validateConfig envOneInvalid).errors = (validateConfig envTwoInvalid).errors ∧
    (validateConfig envTwoInvalid).config_error = true ∧
    botStarts envTwoInvalid = false := by
  decide

/-- C1 (amended): the on-demand check reports a member holding any
verified role as already verified, taking none of the channel-creating
paths; the automatic member-join trigger, by contrast, never consults
the member's roles and proceeds to the guidance-channel ensure-logic for
every joining member once the configuration resolves. -/
theorem c1_verified_member_handling :
    (∀ (vids roles : List Int) (nm sup : Option Int) (lk : GuildLookup),
      has_verified_role roles vids = true → intTruthy nm = true → intTruthy sup = true →
      lk.support_role_found = true → lk.welcome_category_found = true →
      check_member_verification vids nm sup lk roles = .alreadyVerified) ∧
    (∀ (nm : Option Int) (lk : GuildLookup) (roles : List Int),
      intTruthy nm = true → lk.support_role_found = true →
      lk.welcome_category_found = true →
      on_member_join nm lk roles = .ensureWelcomeChannel) := by
  constructor
  · intro vids roles nm sup lk hv hnm hsup hsr hwc
    have hvne : vids.isEmpty = false := by
      cases hvids : vids with
      | nil => rw [hvids] at hv; simp [has_verified_role] at hv
      | cons a l => rfl
    simp [check_member_verification, hvne, hnm, hsup, hsr, hwc, hv]
  · intro nm lk roles hnm hsr hwc
    simp [on_member_join, hnm, hsr, hwc]

/-- C1 witness: a member with a verified role is reported as already
verified by the check action, and an unprivileged joiner gets the
ensure-channel path. -/
theorem c1_verified_member_handling_witness :
    check_member_verification [111] (some 5) (some 9) ⟨true, true⟩ [111, 4]
        = .alreadyVerified ∧
    on_member_join (some 5) ⟨true, true⟩ [222] = .ensureWelcomeChannel :=
  ⟨c1_verified_member_handling.1 [111] [111, 4] (some 5) (some 9) ⟨true, true⟩
      (by decide) (by decide) (by decide) (by decide) (by decide),
    c1_verified_member_handling.2 (some 5) ⟨true, true⟩ [222]
      (by decide) (by decide) (by decide)⟩

/-- C1 counterexample: a member holding a verified role (role 111, with
111 configured verified) still triggers the ensure-channel path on join,
and on a fresh category that path creates a channel and sends the
guidance message — the join trigger does not perform "no action" for
verified members. -/
theorem c1_counterexample_join_acts_on_verified :
    has_verified_role [111] [111] = true ∧
    on_member_join (some 5) ⟨true, true⟩ [111] = .ensureWelcomeChannel ∧
    (create_welcome_channel_for_member ⟨[], 1⟩ ("Verified_User")).2.1 = .guidanceSent 1 ∧
    (create_welcome_channel_for_member ⟨[], 1⟩ ("Verified_User")).1.text_channels.length
      = 1 := by
  decide

theorem findByName_append (l : List TextChannel) (x : TextChannel) (n : String) :
    findByName (l ++ [x]) n =
      match findByName l n with
      | some c => some c
      | none => if x.name = n then some x else none := by
  induction l with
  | nil => simp [findByName]
  | cons ch rest ih =>
      by_cases h : ch.name = n
      · simp [findByName, h]
      · simp [findByName, h, ih]

/-- C7: when no channel of the derived name exists, the first ensure
call creates exactly one channel and posts the guidance message, and a
second call for the same member name finds that channel by name, posts a
reminder, creates nothing, and returns the same channel. -/
theorem c7_ensure_channel_idempotent (cat : WelcomeCategory) (m : String)
    (h : findByName cat.text_channels (channelNameFor m) = none) :
    (create_welcome_channel_for_member cat m).2.1 = .guidanceSent cat.next_id ∧
    (create_welcome_channel_for_member cat m).1.text_channels.length
      = cat.text_channels.length + 1 ∧
    (create_welcome_channel_for_member cat m).2.2 = cat.next_id ∧
    (create_welcome_channel_for_member
        (create_welcome_channel_for_member cat m).1 m).2.1
      = .reminderSent cat.next_id ∧
    (create_welcome_channel_for_member
        (create_welcome_channel_for_member cat m).1 m).1
      = (create_welcome_channel_for_member cat m).1 ∧
    (create_welcome_channel_for_member
        (create_welcome_channel_for_member cat m).1 m).2.2
      = (create_welcome_channel_for_member cat m).2.2 := by
  have hfind : findByName
      (cat.text_channels ++ [{ id := cat.next_id, name := channelNameFor m }])
      (channelNameFor m)
      = some { id := cat.next_id, name := channelNameFor m } := by
    rw [findByName_append, h]
    simp
  refine ⟨?_, ?_, ?_, ?_, ?_, ?_⟩ <;>
    simp [create_welcome_channel_for_member, h, hfind]

/-- C7 witness on an empty welcome category. -/
theorem c7_ensure_channel_idempotent_witness :
    (create_welcome_channel_for_member ⟨[], 0⟩ ("Alice")).2.1 = .guidanceSent 0 ∧
    (create_welcome_channel_for_member ⟨[], 0⟩ ("Alice")).1.text_channels.length = 1 ∧
    (create_welcome_channel_for_member ⟨[], 0⟩ ("Alice")).2.2 = 0 ∧
    (create_welcome_channel_for_member
        (create_welcome_channel_for_member ⟨[], 0⟩ ("Alice")).1 ("Alice")).2.1
      = .reminderSent 0 ∧
    (create_welcome_channel_for_member
        (create_welcome_channel_for_member ⟨[], 0⟩ ("Alice")).1 ("Alice")).1
      = (create_welcome_channel_for_member ⟨[], 0⟩ ("Alice")).1 ∧
    (create_welcome_channel_for_member
        (create_welcome_channel_for_member ⟨[], 0⟩ ("Alice")).1 ("Alice")).2.2
      = (create_welcome_channel_for_member ⟨[], 0⟩ ("Alice")).2.2 :=
  c7_ensure_channel_idempotent ⟨[], 0⟩ ("Alice") (by decide)

/-- C10: for every character table `A` standing for the host's
`str.isalnum` and every string lower-casing `L` standing for the host's
`str.lower`, the derived guidance-channel name is "welcome-" followed by
a suffix of at most 80 characters; when the lower-cased filtered name is
non-empty the suffix is exactly that lower-cased sequence of kept
characters of the original name, truncated to 80 — and for a
per-character lower table every suffix character is the lowering of an
allowed character of the original name (or belongs to the fallback word
"member"); when no character of the name survives the filter, the name
falls back to "welcome-member" — so the derivation is not injective:
names with no allowed characters, or names agreeing after the
filter-and-lower-case step, map to the same channel name. The final
conjunct ties the concrete ASCII instance used elsewhere to this
parameterized embedding. -/
theorem c10_channel_name_derivation :
    (∀ (A : Char → Bool) (L : List Char → List Char) (m : String),
      channelNameForWith A L m = "welcome-" ++ channelSuffixWith A L m) ∧
    (∀ (A : Char → Bool) (L : List Char → List Char) (m : String),
      (channelSuffixWith A L m).length ≤ 80) ∧
    (∀ (A : Char → Bool) (L : List Char → List Char) (m : String),
      L (m.toList.filter (keepCharWith A)) ≠ [] →
      channelSuffixWith A L m
        = String.mk ((L (m.toList.filter (keepCharWith A))).take 80)) ∧
    (∀ (A : Char → Bool) (l : Char → Char) (m : String) (c : Char),
      c ∈ (channelSuffixWith A (List.map l) m).toList →
      (∃ d, d ∈ m.toList ∧ keepCharWith A d = true ∧ c = l d) ∨
        c ∈ ("member" : String).toList) ∧
    (∀ (A : Char → Bool) (L : List Char → List Char) (m : String), L [] = [] →
      (m.toList.all fun c => !keepCharWith A c) = true →
      channelNameForWith A L m = "welcome-member") ∧
    (∀ (A : Char → Bool) (L : List Char → List Char) (m1 m2 : String), L [] = [] →
      (m1.toList.all fun c => !keepCharWith A c) = true →
      (m2.toList.all fun c => !keepCharWith A c) = true →
      channelNameForWith A L m1 = channelNameForWith A L m2) ∧
    (∀ (A : Char → Bool) (L : List Char → List Char) (m1 m2 : String),
      L (m1.toList.filter (keepCharWith A)) = L (m2.toList.filter (keepCharWith A)) →
      channelNameForWith A L m1 = channelNameForWith A L m2) ∧
    (∀ m : String, channelNameFor m
      = channelNameForWith isAlnumChar (List.map lowerChar) m) := by
  have hfallback : ∀ (A : Char → Bool) (L : List Char → List Char) (m : String),
      L [] = [] → (m.toList.all fun c => !keepCharWith A c) = true →
      channelNameForWith A L m = "welcome-member" := by
    intro A L m hL h
    have hf : m.toList.filter (keepCharWith A) = [] := by
      rw [List.filter_eq_nil_iff]
      intro a ha
      have := List.all_eq_true.mp h a ha
      simpa using this
    have hsafe : safeNameOfWith A L m = ("member") := by
      unfold safeNameOfWith
      rw [hf, hL]
      rfl
    unfold channelNameForWith channelSuffixWith
    rw [hsafe]
    decide
  refine ⟨?_, ?_, ?_, ?_, hfallback, ?_, ?_, ?_⟩
  · intro A L m
    rfl
  · intro A L m
    show ((safeNameOfWith A L m).toList.take 80).length ≤ 80
    exact le_trans (List.length_take_le 80 _) (le_refl 80)
  · intro A L m h
    have hne : (L (m.toList.filter (keepCharWith A))).isEmpty = false := by
      cases hl : L (m.toList.filter (keepCharWith A)) with
      | nil => exact absurd hl h
      | cons a l2 => rfl
    unfold channelSuffixWith safeNameOfWith
    rw [hne]
    simp only [Bool.false_eq_true, if_false]
    rfl
  · intro A l m c hc
    have hc1 : c ∈ (safeNameOfWith A (List.map l) m).toList.take 80 := hc
    have hc2 : c ∈ (safeNameOfWith A (List.map l) m).toList := List.mem_of_mem_take hc1
    unfold safeNameOfWith at hc2
    by_cases hf : (List.map l (m.toList.filter (keepCharWith A))).isEmpty
    · right
      simp only [hf, if_pos] at hc2
      exact hc2
    · left
      simp only [hf, if_neg, Bool.false_eq_true, not_false_eq_true] at hc2
      have hc3 : c ∈ List.map l (m.toList.filter (keepCharWith A)) := hc2
      obtain ⟨d, hd, hdc⟩ := List.mem_map.mp hc3
      exact ⟨d, List.mem_of_mem_filter hd, List.of_mem_filter hd, hdc.symm⟩
  · intro A L m1 m2 hL h1 h2
    rw [hfallback A L m1 hL h1, hfallback A L m2 hL h2]
  · intro A L m1 m2 heq
    unfold channelNameForWith channelSuffixWith safeNameOfWith
    rw [heq]
  · intro m
    rfl

/-- C10 witness at the ASCII table instance, on ASCII inputs where that
instance agrees with the host's tables: fallback, convergence of two
all-disallowed names, and the exact filtered-lowered suffix for a
mixed-case name. -/
theorem c10_channel_name_derivation_witness :
    channelNameForWith isAlnumChar (List.map lowerChar) ("!!!") = "welcome-member" ∧
    channelNameForWith isAlnumChar (List.map lowerChar) ("!!!")
      = channelNameForWith isAlnumChar (List.map lowerChar) ("??") ∧
    channelSuffixWith isAlnumChar (List.map lowerChar) ("Ab-1")
      = String.mk ((List.map lowerChar (("Ab-1" : String).toList.filter
          (keepCharWith isAlnumChar))).take 80) :=
  ⟨c10_channel_name_derivation.2.2.2.2.1 isAlnumChar (List.map lowerChar) ("!!!")
      (by decide) (by decide),
    c10_channel_name_derivation.2.2.2.2.2.1 isAlnumChar (List.map lowerChar)
      ("!!!") ("??") (by decide) (by decide) (by decide),
    c10_channel_name_derivation.2.2.1 isAlnumChar (List.map lowerChar) ("Ab-1")
      (by decide)⟩

end Bot
